import Mathlib

/-!
Shallow embedding of the poco-verifier verification agent.

The embedding covers:
- the generic bounded-retry combinator of committee-client.ts (withRetry);
- the committee broadcast protocol sendProofToCommittee / sendProofToMember and
  the leader-first status read getTaskStatus / getTaskStatusFromMember;
- the GOP splitter GopAnalyzer.splitVideoIntoGops with JS Map.set semantics,
  where the fate of the external ffmpeg invocation and the set of segment files
  it produces are oracle parameters;
- the quality scorer MediaQualityEvaluator.calculateVmafScore, whose external
  tool run is an oracle parameter;
- the verification pipeline VerifierService.verifyTask, with every external
  effect (IPFS download, splitting, hashing, ffprobe, ledger submit, committee
  send) given by an environment of oracles, instrumented with an effect trace
  recording downloads, committee fan-outs and cleanup;
- the task dispatcher (pollTasks / processNextTask) as a guarded transition
  system over the busy flag and the deduplicated queue.

Scores are modelled as rationals; TS number arithmetic on the values in play
(sums of a handful of scores, division by the count) is exact well within the
0.001 tolerances the properties use.  JS undefined obtained by indexing past
the end of an array is modelled as Option.none.
-/

/-- Generic bounded retry, committee-client.ts lines 55-90.  The operation is
given as a function of the attempt index; fuel is the number of retries still
allowed after the current attempt.  When the fuel is exhausted the last thrown
error propagates. -/
def runRetry {α : Type} (op : Nat → Except String α) : Nat → Nat → Except String α
  | k, 0 => op k
  | k, fuel + 1 =>
    match op k with
    | .ok a => .ok a
    | .error _ => runRetry op (k + 1) fuel

/-- withRetry with a maxRetries budget: the loop performs exactly maxRetries
attempts before the error escapes (retries are counted after each failed
attempt and compared with maxRetries). -/
def withRetry {α : Type} (op : Nat → Except String α) (maxRetries : Nat) : Except String α :=
  runRetry op 0 (maxRetries - 1)

/-- Committee member record, committee-client.ts lines 10-15. -/
structure CommitteeMember where
  account_id : String
  ip_address : String
  port : Nat
  is_leader : Bool
deriving Repr, DecidableEq

/-- sendProofToMember, committee-client.ts lines 197-232: one POST attempt is
given by the oracle; Except.ok means HTTP 202, Except.error covers both
non-202 statuses and network failures (both throw in the source).  The retry
budget is 2 and the final catch converts an exhausted retry into false, so the
call always terminates with a Bool. -/
def sendProofToMember (attempt : Nat → Except String Unit) : Bool :=
  match withRetry attempt 2 with
  | .ok _ => true
  | .error _ => false

/-- sendProofToCommittee, committee-client.ts lines 152-189.  refreshOk is the
fate of updateCommitteeMembers (false = it threw, caught by the outer catch
which returns false).  attempts gives, per member and attempt index, the fate
of one POST to that member.  The fan-out is a join-all
(Promise.allSettled): the aggregate is computed only from the terminated
outcome of every member, so the pair returned here is (overall result,
successCount) with successCount counting all members whose bounded-retry
delivery succeeded. -/
def sendProofToCommittee (refreshOk : Bool)
    (members : List CommitteeMember)
    (attempts : CommitteeMember → Nat → Except String Unit) : Bool × Nat :=
  if refreshOk = false then (false, 0)
  else if members.isEmpty then (false, 0)
  else
    let successCount := (members.filter (fun m => sendProofToMember (attempts m))).length
    (decide (0 < successCount), successCount)

/-- Payload of a successful status query (the JSON body), kept opaque as a
string. -/
abbrev TaskStatus := String

/-- getTaskStatusFromMember, committee-client.ts lines 300-335: GET with retry
budget 2; ok means HTTP 200 with a body, error covers everything else; the
final catch turns an exhausted retry into null. -/
def getTaskStatusFromMember (attempt : Nat → Except String TaskStatus) : Option TaskStatus :=
  match withRetry attempt 2 with
  | .ok s => some s
  | .error _ => none

/-- Follower loop of getTaskStatus, committee-client.ts lines 266-277: iterate
the non-leader members in cached order and return the first non-null status. -/
def tryFollowers (q : CommitteeMember → Option TaskStatus) :
    List CommitteeMember → Option TaskStatus
  | [] => none
  | m :: rest =>
    match q m with
    | some s => some s
    | none => tryFollowers q rest

/-- One outer attempt of getTaskStatus, committee-client.ts lines 241-281:
refresh the member list (a throw propagates), return null on an empty list,
query the leader first, then fall back to the followers in cached order; if
nobody answers, throw to trigger the outer retry. -/
def getTaskStatusBody (refreshOk : Bool) (members : List CommitteeMember)
    (q : CommitteeMember → Option TaskStatus) : Except String (Option TaskStatus) :=
  if refreshOk = false then .error "refresh failed"
  else if members.isEmpty then .ok none
  else
    let leaderAnswer :=
      match members.find? (fun m => m.is_leader) with
      | some leader => q leader
      | none => none
    match leaderAnswer with
    | some s => .ok (some s)
    | none =>
      match tryFollowers q (members.filter (fun m => !m.is_leader)) with
      | some s => .ok (some s)
      | none => .error "no committee member answered"

/-- getTaskStatus, committee-client.ts lines 239-289: the whole body runs under
withRetry with budget 2, and the final catch maps an exhausted retry to null.
resp gives, per outer round, member and inner attempt index, the fate of one
GET to that member. -/
def getTaskStatus (refreshOk : Nat → Bool) (members : List CommitteeMember)
    (resp : Nat → CommitteeMember → Nat → Except String TaskStatus) : Option TaskStatus :=
  match withRetry
      (fun k => getTaskStatusBody (refreshOk k) members
        (fun m => getTaskStatusFromMember (resp k m))) 2 with
  | .ok o => o
  | .error _ => none

/-- JS Map.set: replace in place when the key is already present (insertion
order is preserved), otherwise append.  Keys are Option String because the
source may index past the end of the timestamp array, producing undefined. -/
def mapSet : List (Option String × String) → Option String → String →
    List (Option String × String)
  | [], k, v => [(k, v)]
  | kv :: rest, k, v =>
    if kv.1 = k then (k, v) :: rest else kv :: mapSet rest k v

/-- Name of the i-th segment file emitted by the ffmpeg segment muxer,
GopAnalyzer.ts line 70 (extension elided). -/
def segName (i : Nat) : String := "segment_" ++ toString i

/-- GopAnalyzer.splitVideoIntoGops, GopAnalyzer.ts lines 42-112.  ffmpegOk is
the fate of the external ffmpeg segment run (false = execAsync rejected, and
the catch rethrows); segExists says which segment_i files exist afterwards.
The map is then built exactly as in the source: segment_0 keyed by
timestamps[0], segment_i (0 < i < length) keyed by timestamps[i], and
segment_length keyed by timestamps[length-1].  Out-of-range indexing yields
the undefined key (none). -/
def splitVideoIntoGops (ffmpegOk : Bool) (segExists : Nat → Bool)
    (timestamps : List String) : Except String (List (Option String × String)) :=
  if ffmpegOk = false then .error "ffmpeg segment run failed"
  else
    let m0 : List (Option String × String) :=
      if segExists 0 then mapSet [] (timestamps.get? 0) (segName 0) else []
    let m1 := (List.range' 1 (timestamps.length - 1)).foldl
      (fun m i => if segExists i then mapSet m (timestamps.get? i) (segName i) else m) m0
    let m2 :=
      if segExists timestamps.length then
        mapSet m1 (timestamps.get? (timestamps.length - 1)) (segName timestamps.length)
      else m1
    .ok m2

/-- MediaQualityEvaluator.calculateVmafScore, MediaQualityEvaluator.ts lines
51-95.  The oracle is the fate of the whole tool run: error covers a rejected
ffmpeg invocation, a missing output file and a JSON parse failure (all throw
in the source and land in the catch, which returns 0); ok carries the parsed
pooled vmaf mean, none when the field is absent (the source then takes 0 via
the or-default). -/
def calculateVmafScore (toolRun : Except String (Option ℚ)) : ℚ :=
  match toolRun with
  | .error _ => 0
  | .ok m => m.getD 0

/-- Video specification, types referenced from GopAnalyzer.getVideoSpecifications. -/
structure VideoSpecification where
  codec : String
  resolution : String
  bitrate : Int
  framerate : ℚ
deriving Repr, DecidableEq

/-- Per-GOP score entry pushed by the pipeline, VerifierService.ts lines 308-312. -/
structure GopScore where
  timestamp : String
  vmaf_score : ℚ
  hash : String
deriving Repr, DecidableEq

/-- Verifier QoS proof, VerifierService.ts lines 340-351. -/
structure VerifierQosProof where
  id : String
  task_id : String
  verifier_id : String
  timestamp : Nat
  video_specs : VideoSpecification
  video_score : ℚ
  gop_scores : List GopScore
  audio_score : ℚ
  sync_score : ℚ
  signature : String
deriving Repr, DecidableEq

/-- Task fields consumed by verifyTask.  Locators are Option String so that
the JS falsiness checks on missing fields can be modelled; the arrays are
Option (List String) because an absent array is falsy while an empty array is
truthy. -/
structure TaskData where
  task_id : String
  source_ipfs : Option String
  result_ipfs : Option String
  selected_gops : Option (List String)
  keyframe_timestamps : Option (List String)
deriving Repr, DecidableEq

/-- Queue entry: a task together with its supplemental-verifier role flag. -/
structure TaskDataWithRole where
  task : TaskData
  is_supplemental_verifier : Bool
deriving Repr, DecidableEq

/-- JS falsiness of an optional string field: undefined, null and the empty
string are all falsy. -/
def jsFalsy : Option String → Bool
  | none => true
  | some s => s.isEmpty

/-- Selected GOP list of a task (empty when absent, which verifyTask rejects
before using it). -/
def selectedOf (task : TaskData) : List String := task.selected_gops.getD []

/-- Step 2 of verifyTask, VerifierService.ts lines 241-250: start from
keyframe_timestamps when present (an empty array is truthy, hence kept),
otherwise from selected_gops, then push every selected timestamp not already
in the list. -/
def allTimestampsOf (task : TaskData) : List String :=
  let base := task.keyframe_timestamps.getD (selectedOf task)
  (selectedOf task).foldl (fun acc g => if g ∈ acc then acc else acc ++ [g]) base

/-- Environment of external effects for one verifyTask run.  Each field is the
observed outcome of the corresponding external call; errors model thrown
exceptions, which the source catches only at the top of verifyTask. -/
structure VerifyEnv where
  download : Except String (String × String)
  splitSource : List String → Except String (String → Option String)
  splitResult : List String → Except String (String → Option String)
  vmafRun : String → String → Except String (Option ℚ)
  gopHash : String → Except String String
  videoSpecsOf : String → Except String VideoSpecification
  submit : Except String Bool
  sendOk : Bool
  now : Nat
  verifierId : String
  audioScore : ℚ
  syncScore : ℚ
  sig : String

/-- Effect trace of one verifyTask run: whether the media files were
downloaded, the proofs fanned out through sendProofToCommittee, and whether
the end-of-task cleanup (downloaded files and GOP directory) was performed. -/
structure VTrace where
  downloaded : Bool
  committeeSends : List VerifierQosProof
  cleaned : Bool
deriving Repr, DecidableEq

/-- Scoring loop of verifyTask, VerifierService.ts lines 282-313: for each
selected timestamp look up both GOP paths; when either is missing the marker
is skipped; otherwise score the pair (calculateVmafScore never throws), hash
the candidate segment (this can throw and then aborts the task), subtract the
fixed 10-point offset and push the entry. -/
def scoreGops (env : VerifyEnv) (srcMap resMap : String → Option String) :
    List String → Except String (List GopScore)
  | [] => .ok []
  | g :: rest =>
    match srcMap g, resMap g with
    | some sp, some rp =>
      match env.gopHash rp with
      | .error e => .error e
      | .ok h =>
        match scoreGops env srcMap resMap rest with
        | .error e => .error e
        | .ok tail => .ok (⟨g, calculateVmafScore (env.vmafRun sp rp) - 10, h⟩ :: tail)
    | _, _ => scoreGops env srcMap resMap rest

/-- VerifierService.verifyTask, VerifierService.ts lines 221-396, instrumented
with an effect trace.  Any thrown error (missing task fields, empty selected
set, download failure, split failure, hash failure, ffprobe failure, a ledger
submit that throws or returns false, zero scored GOPs) lands in the single
catch at the bottom, which returns null.  The committee send (step 10) is
recorded in the trace; its Boolean result is only logged.  The cleanup
(step 11) runs after the committee send, inside the try block. -/
def verifyTaskTrace (env : VerifyEnv) (task : TaskData) :
    Option VerifierQosProof × VTrace :=
  if jsFalsy task.source_ipfs || jsFalsy task.result_ipfs || task.selected_gops.isNone then
    (none, ⟨false, [], false⟩)
  else if (selectedOf task).isEmpty then
    (none, ⟨false, [], false⟩)
  else
    match env.download with
    | .error _ => (none, ⟨false, [], false⟩)
    | .ok (_sourcePath, resultPath) =>
      match env.splitSource (allTimestampsOf task), env.splitResult (allTimestampsOf task) with
      | .error _, _ => (none, ⟨true, [], false⟩)
      | .ok _, .error _ => (none, ⟨true, [], false⟩)
      | .ok srcMap, .ok resMap =>
        match scoreGops env srcMap resMap (selectedOf task) with
        | .error _ => (none, ⟨true, [], false⟩)
        | .ok gopScores =>
          if gopScores.isEmpty then (none, ⟨true, [], false⟩)
          else
            let overall := (gopScores.map GopScore.vmaf_score).sum / (gopScores.length : ℚ)
            match env.videoSpecsOf resultPath with
            | .error _ => (none, ⟨true, [], false⟩)
            | .ok specs =>
              let proof : VerifierQosProof :=
                { id := "proof-" ++ task.task_id ++ "-" ++ env.verifierId
                  task_id := task.task_id
                  verifier_id := env.verifierId
                  timestamp := env.now
                  video_specs := specs
                  video_score := overall
                  gop_scores := gopScores
                  audio_score := env.audioScore
                  sync_score := env.syncScore
                  signature := env.sig }
              match env.submit with
              | .error _ => (none, ⟨true, [], false⟩)
              | .ok false => (none, ⟨true, [], false⟩)
              | .ok true => (some proof, ⟨true, [proof], true⟩)

/-- Return value of verifyTask (the proof, or null on any failure). -/
def verifyTask (env : VerifyEnv) (task : TaskData) : Option VerifierQosProof :=
  (verifyTaskTrace env task).1

/-- Committee fan-outs issued while processNextTask handles one queue entry,
VerifierService.ts lines 163-214: the sends performed inside verifyTask, plus
one more sendProofToCommittee with the returned proof when verification
succeeded and the verifier is not supplemental (the supplemental branch goes
through sendSupplementaryProof instead, a distinct endpoint not counted
here). -/
def processNextTaskSends (env : VerifyEnv) (tw : TaskDataWithRole) :
    List VerifierQosProof :=
  match (verifyTaskTrace env tw.task).1 with
  | some p =>
    if tw.is_supplemental_verifier then (verifyTaskTrace env tw.task).2.committeeSends
    else (verifyTaskTrace env tw.task).2.committeeSends ++ [p]
  | none => (verifyTaskTrace env tw.task).2.committeeSends

/-- Dispatcher state: the busy flag, the queue of task ids, and a ghost
counter of pipeline runs currently executing. -/
structure DState where
  isProcessingTask : Bool
  taskQueue : List String
  inFlight : Nat
deriving Repr, DecidableEq

/-- Queue merge of pollTasks, VerifierService.ts lines 138-144: append the
fetched tasks whose id is not already queued, preserving arrival order. -/
def enqueueDedup (queue fetched : List String) : List String :=
  fetched.foldl (fun q t => if t ∈ q then q else q ++ [t]) queue

/-- State effect of one pollTasks arrival, VerifierService.ts lines 122-158:
while busy the poll returns at once (nothing fetched, nothing queued);
otherwise the fetched tasks are merged into the queue.  The possible ensuing
dispatch is the separate start transition. -/
def pollTasksStep (s : DState) (fetched : List String) : DState :=
  if s.isProcessingTask then s
  else { s with taskQueue := enqueueDedup s.taskQueue fetched }

/-- Entry of processNextTask, VerifierService.ts lines 163-171: the guard
refuses when busy or when the queue is empty; otherwise the head is popped,
the busy flag set and a pipeline run begins (the returned Bool says whether a
run was started).  The guard, the pop and the flag update are one synchronous
block with no await point in between. -/
def processNextTaskStart (s : DState) : DState × Bool :=
  if s.isProcessingTask || s.taskQueue.isEmpty then (s, false)
  else (⟨true, s.taskQueue.tail, s.inFlight + 1⟩, true)

/-- Completion of a pipeline run: the finally block of processNextTask,
VerifierService.ts lines 205-213, clears the busy flag. -/
def finishRun (s : DState) : DState := ⟨false, s.taskQueue, s.inFlight - 1⟩

/-- Events of the dispatcher: a timer-driven poll arrival, a processNextTask
invocation, and the completion of the run in flight. -/
inductive DStep : DState → DState → Prop
  | poll {s : DState} (fetched : List String) : DStep s (pollTasksStep s fetched)
  | start {s : DState} : DStep s (processNextTaskStart s).1
  | finish {s : DState} : 1 ≤ s.inFlight → DStep s (finishRun s)

/-- Dispatcher states reachable from the initial idle state. -/
inductive DReachable : DState → Prop
  | init : DReachable ⟨false, [], 0⟩
  | step {s s' : DState} : DReachable s → DStep s s' → DReachable s'

/-- Busy flag discipline: the ghost run counter is 1 exactly while the busy
flag is set and 0 otherwise. -/
def dispatchInv (s : DState) : Prop :=
  s.inFlight = (if s.isProcessingTask then 1 else 0)

/-- Concrete task of the end-to-end scenario: full markers of the spec, the
three selected sample markers. -/
def c1Task : TaskData :=
  { task_id := "t1", source_ipfs := some "QmS", result_ipfs := some "QmR"
    selected_gops := some ["0", "2.27", "5.13"]
    keyframe_timestamps := some ["0", "1.2", "2.27", "3.47", "5.13", "9.13"] }

/-- Concrete video specification used by the scenario environments. -/
def c1Specs : VideoSpecification :=
  { codec := "h264", resolution := "1920x1080", bitrate := 5000000, framerate := 30 }

/-- Marker-to-segment map the scenario splitter returns for the source asset. -/
def c1SrcMap : String → Option String := fun g =>
  if g = "0" then some "s-0" else if g = "2.27" then some "s-2.27"
  else if g = "5.13" then some "s-5.13" else some "s-other"

/-- Marker-to-segment map the scenario splitter returns for the result asset. -/
def c1ResMap : String → Option String := fun g =>
  if g = "0" then some "r-0" else if g = "2.27" then some "r-2.27"
  else if g = "5.13" then some "r-5.13" else some "r-other"

/-- Concrete environment of the end-to-end scenario: both assets download and
split for every marker, the external scorer reports 92, 95 and 97 for the
three selected pairs, hashing, probing and the ledger submit all succeed. -/
def c1Env : VerifyEnv :=
  { download := .ok ("s.mp4", "r.mp4")
    splitSource := fun _ => .ok c1SrcMap
    splitResult := fun _ => .ok c1ResMap
    vmafRun := fun sp _ =>
      .ok (some (if sp = "s-0" then 92 else if sp = "s-2.27" then 95 else 97))
    gopHash := fun p =>
      .ok (if p = "r-0" then "h0" else if p = "r-2.27" then "h2" else "h5")
    videoSpecsOf := fun _ => .ok c1Specs
    submit := .ok true
    sendOk := true
    now := 1700000000000
    verifierId := "verifier1.testnet"
    audioScore := 43/10
    syncScore := 0
    sig := "sig" }

/-- Proof value the pipeline produces in the end-to-end scenario: the three
per-sample scores carry the 10-point subtractive offset, so the overall score
is 254/3. -/
def c1Proof : VerifierQosProof :=
  { id := "proof-t1-verifier1.testnet", task_id := "t1"
    verifier_id := "verifier1.testnet", timestamp := 1700000000000
    video_specs := c1Specs, video_score := 254/3
    gop_scores := [⟨"0", 82, "h0"⟩, ⟨"2.27", 85, "h2"⟩, ⟨"5.13", 87, "h5"⟩]
    audio_score := 43/10, sync_score := 0, signature := "sig" }

/-- Variant of the scenario in which the ledger rejects the proof (the submit
call returns false): verifyTask throws at step 9, after the assets were
downloaded and split but before the cleanup of step 11. -/
def c3Env : VerifyEnv :=
  { c1Env with submit := .ok false }

/-- Evaluation of the pipeline on the end-to-end scenario: the proof with the
offset scores is produced, sent to the committee once from inside verifyTask,
and the cleanup runs. -/
theorem c1_run : verifyTaskTrace c1Env c1Task = (some c1Proof, ⟨true, [c1Proof], true⟩) := by
  have hid : ("proof-" ++ "t1" ++ "-" ++ "verifier1.testnet" : String) =
      "proof-t1-verifier1.testnet" := by decide
  simp +decide only [verifyTaskTrace, c1Env, c1SrcMap, c1ResMap, c1Task, c1Proof, c1Specs,
    scoreGops, calculateVmafScore, selectedOf, jsFalsy, Option.getD, Option.isNone]
  simp [hid]
  norm_num

/-- Evaluation of the pipeline when the ledger submit returns false: no proof,
assets downloaded, no committee send, and no cleanup. -/
theorem c3_run : verifyTaskTrace c3Env c1Task = (none, ⟨true, [], false⟩) := by
  simp +decide only [verifyTaskTrace, c3Env, c1Env, c1SrcMap, c1ResMap, c1Task, c1Specs,
    scoreGops, calculateVmafScore, selectedOf, jsFalsy, Option.getD, Option.isNone]

/-- Structural dichotomy of one verifyTask run: either some step threw and the
run returns null with no committee send and no cleanup, or the run returns a
proof, sent to the committee exactly once, with the cleanup performed. -/
theorem verifyTaskTrace_cases (env : VerifyEnv) (task : TaskData) :
    ((verifyTaskTrace env task).1 = none ∧ (verifyTaskTrace env task).2.cleaned = false ∧
      (verifyTaskTrace env task).2.committeeSends = []) ∨
    (∃ p, (verifyTaskTrace env task).1 = some p ∧
      (verifyTaskTrace env task).2 = ⟨true, [p], true⟩) := by
  unfold verifyTaskTrace
  repeat' split
  all_goals first
    | exact Or.inl ⟨rfl, rfl, rfl⟩
    | exact Or.inr ⟨_, rfl, rfl⟩

/-- Invariant of the dispatcher: in every reachable state the ghost run
counter is 1 while the busy flag is set and 0 otherwise. -/
theorem dReachable_inv {s : DState} (h : DReachable s) : dispatchInv s := by
  induction h with
  | init => rfl
  | step hr hstep ih =>
    cases hstep with
    | poll fetched =>
      unfold pollTasksStep
      split
      · exact ih
      · exact ih
    | start =>
      unfold processNextTaskStart
      split
      · exact ih
      · rename_i s hguard
        simp only [Bool.or_eq_true, not_or] at hguard
        unfold dispatchInv at ih ⊢
        simp only [Bool.not_eq_true] at hguard
        rw [hguard.1] at ih
        simp [ih]
    | finish hfl =>
      rename_i s
      unfold dispatchInv at ih ⊢
      unfold finishRun
      by_cases hb : s.isProcessingTask = true
      · rw [hb] at ih; simp [ih]
      · simp only [Bool.not_eq_true] at hb
        rw [hb] at ih; simp [ih] at hfl ⊢

/-- C6: in every reachable dispatcher state at most one pipeline run is in
flight; and whenever the busy flag is set, a poll arrival leaves the state
untouched (nothing fetched, nothing queued) and a processNextTask invocation
starts no run. -/
theorem dispatcher_single_flight :
    (∀ s : DState, DReachable s → s.inFlight ≤ 1) ∧
    (∀ (s : DState) (fetched : List String), s.isProcessingTask = true →
      pollTasksStep s fetched = s ∧ (processNextTaskStart s).2 = false) := by
  constructor
  · intro s hs
    have h := dReachable_inv hs
    unfold dispatchInv at h
    rw [h]
    split <;> omega
  · intro s fetched hb
    constructor
    · unfold pollTasksStep
      rw [hb]
      simp
    · unfold processNextTaskStart
      rw [hb]
      simp

/-- Witness for C6 at a concrete reachable busy state. -/
theorem dispatcher_single_flight_witness :
    (⟨true, ["t2"], 1⟩ : DState).inFlight ≤ 1 ∧
    pollTasksStep ⟨true, ["t2"], 1⟩ ["t3"] = ⟨true, ["t2"], 1⟩ ∧
    (processNextTaskStart ⟨true, ["t2"], 1⟩).2 = false := by
  have h0 : DReachable ⟨false, [], 0⟩ := DReachable.init
  have h1 : DReachable (pollTasksStep ⟨false, [], 0⟩ ["t1", "t2"]) :=
    h0.step (DStep.poll ["t1", "t2"])
  have e1 : pollTasksStep ⟨false, [], 0⟩ ["t1", "t2"] = ⟨false, ["t1", "t2"], 0⟩ := by decide
  rw [e1] at h1
  have h2 : DReachable (processNextTaskStart ⟨false, ["t1", "t2"], 0⟩).1 := h1.step DStep.start
  have e2 : (processNextTaskStart ⟨false, ["t1", "t2"], 0⟩).1 = ⟨true, ["t2"], 1⟩ := by decide
  rw [e2] at h2
  exact ⟨dispatcher_single_flight.1 _ h2,
    (dispatcher_single_flight.2 ⟨true, ["t2"], 1⟩ ["t3"] rfl).1,
    (dispatcher_single_flight.2 ⟨true, ["t2"], 1⟩ ["t3"] rfl).2⟩

/-- C2: with the member refresh succeeding and at least one member, the
broadcast returns true exactly when at least one member acknowledged within
its retry budget; the success count tallies the terminated outcome of every
member (join-all) and lies in [1, N] whenever the call returns true. -/
theorem sendProofToCommittee_quorum
    (members : List CommitteeMember)
    (attempts : CommitteeMember → Nat → Except String Unit)
    (hN : 1 ≤ members.length) :
    ((sendProofToCommittee true members attempts).1 = true ↔
      ∃ m ∈ members, sendProofToMember (attempts m) = true) ∧
    (sendProofToCommittee true members attempts).2 =
      (members.filter (fun m => sendProofToMember (attempts m))).length ∧
    ((sendProofToCommittee true members attempts).1 = true →
      1 ≤ (sendProofToCommittee true members attempts).2 ∧
      (sendProofToCommittee true members attempts).2 ≤ members.length) := by
  have hne : members.isEmpty = false := by
    cases members with
    | nil => simp at hN
    | cons a l => rfl
  unfold sendProofToCommittee
  rw [if_neg (by decide : ¬ (true = false))]
  rw [if_neg (show ¬ (members.isEmpty = true) by simp [hne])]
  simp only [decide_eq_true_eq]
  refine ⟨?_, trivial, ?_⟩
  · rw [List.length_pos]
    constructor
    · intro hfne
      rcases List.exists_mem_of_ne_nil _ hfne with ⟨m, hm⟩
      rw [List.mem_filter] at hm
      exact ⟨m, hm.1, hm.2⟩
    · rintro ⟨m, hm, hp⟩ hnil
      have hmem : m ∈ members.filter (fun m => sendProofToMember (attempts m)) :=
        List.mem_filter.2 ⟨hm, hp⟩
      simp [hnil] at hmem
  · intro hpos
    exact ⟨hpos, List.length_filter_le _ _⟩

/-- Single-member committee used to witness the quorum theorem. -/
def c2Members : List CommitteeMember := [⟨"leader", "10.24.136.124", 9000, true⟩]

/-- Attempt oracle in which every POST is acknowledged with 202. -/
def c2Attempts : CommitteeMember → Nat → Except String Unit := fun _ _ => .ok ()

/-- Witness for C2 at a concrete one-member committee. -/
theorem sendProofToCommittee_quorum_witness :
    ((sendProofToCommittee true c2Members c2Attempts).1 = true ↔
      ∃ m ∈ c2Members, sendProofToMember (c2Attempts m) = true) ∧
    (sendProofToCommittee true c2Members c2Attempts).2 =
      (c2Members.filter (fun m => sendProofToMember (c2Attempts m))).length ∧
    ((sendProofToCommittee true c2Members c2Attempts).1 = true →
      1 ≤ (sendProofToCommittee true c2Members c2Attempts).2 ∧
      (sendProofToCommittee true c2Members c2Attempts).2 ≤ c2Members.length) :=
  sendProofToCommittee_quorum c2Members c2Attempts (by decide)

/-- C7: a failed tool invocation makes calculateVmafScore return the floor 0
instead of propagating; and because scoring is total, the aggregation loop
never fails on account of the scorer (it can only fail through hashing). -/
theorem calculateVmafScore_floor :
    (∀ e : String, calculateVmafScore (Except.error e) = 0) ∧
    (∀ (env : VerifyEnv) (smap rmap : String → Option String) (gs : List String),
      (∀ p, ∃ h, env.gopHash p = Except.ok h) →
      ∃ l, scoreGops env smap rmap gs = Except.ok l) := by
  constructor
  · intro e
    rfl
  · intro env smap rmap gs hh
    induction gs with
    | nil => exact ⟨[], rfl⟩
    | cons g rest ih =>
      obtain ⟨l, hl⟩ := ih
      unfold scoreGops
      cases hs : smap g with
      | none => exact ⟨l, by simp [hl]⟩
      | some sp =>
        cases hr : rmap g with
        | none => exact ⟨l, by simp [hl]⟩
        | some rp =>
          obtain ⟨hv, hhv⟩ := hh rp
          exact ⟨⟨g, calculateVmafScore (env.vmafRun sp rp) - 10, hv⟩ :: l,
            by simp [hhv, hl]⟩

/-- Witness for C7: a concrete failed tool run scores 0, and a concrete
aggregation with an always-succeeding hasher terminates successfully. -/
theorem calculateVmafScore_floor_witness :
    calculateVmafScore (Except.error "tool failed") = 0 ∧
    ∃ l, scoreGops c1Env (fun _ => none) (fun _ => none) ["0"] = Except.ok l :=
  ⟨calculateVmafScore_floor.1 "tool failed",
    calculateVmafScore_floor.2 c1Env (fun _ => none) (fun _ => none) ["0"]
      (fun _ => ⟨_, rfl⟩)⟩

theorem tryFollowers_eq_none (q : CommitteeMember → Option TaskStatus) :
    ∀ fs : List CommitteeMember, (∀ m ∈ fs, q m = none) → tryFollowers q fs = none := by
  intro fs
  induction fs with
  | nil => intro _; rfl
  | cons m rest ih =>
    intro h
    unfold tryFollowers
    rw [h m (List.mem_cons_self m rest)]
    exact ih (fun x hx => h x (List.mem_cons_of_mem m hx))

theorem getTaskStatus_leader_fallback
    (members : List CommitteeMember)
    (resp : Nat → CommitteeMember → Nat → Except String TaskStatus)
    (refreshOk : Nat → Bool) :
    (∀ s : TaskStatus,
      refreshOk 0 = true →
      members.isEmpty = false →
      (∀ L, members.find? (fun m => m.is_leader) = some L →
        getTaskStatusFromMember (resp 0 L) = none) →
      tryFollowers (fun m => getTaskStatusFromMember (resp 0 m))
        (members.filter (fun m => !m.is_leader)) = some s →
      getTaskStatus refreshOk members resp = some s) ∧
    ((∀ k L, members.find? (fun m => m.is_leader) = some L →
        getTaskStatusFromMember (resp k L) = none) →
      (∀ k m, m ∈ members.filter (fun m => !m.is_leader) →
        getTaskStatusFromMember (resp k m) = none) →
      getTaskStatus refreshOk members resp = none) := by
  constructor
  · intro s hr0 hne hL hF
    have hbody : getTaskStatusBody (refreshOk 0) members
        (fun m => getTaskStatusFromMember (resp 0 m)) = .ok (some s) := by
      unfold getTaskStatusBody
      rw [hr0]
      rw [if_neg (by decide : ¬ (true = false))]
      rw [if_neg (show ¬ (members.isEmpty = true) by simp [hne])]
      cases hfind : members.find? (fun m => m.is_leader) with
      | none => simp [hF]
      | some L => simp [hL L hfind, hF]
    unfold getTaskStatus withRetry runRetry
    simp only [hbody]
  · intro hL hF
    have hbody : ∀ k, (∃ e, getTaskStatusBody (refreshOk k) members
        (fun m => getTaskStatusFromMember (resp k m)) = .error e) ∨
        getTaskStatusBody (refreshOk k) members
          (fun m => getTaskStatusFromMember (resp k m)) = .ok none := by
      intro k
      unfold getTaskStatusBody
      cases hrk : refreshOk k with
      | false => exact Or.inl ⟨"refresh failed", by simp⟩
      | true =>
        rw [if_neg (by decide : ¬ (true = false))]
        cases hmt : members.isEmpty with
        | true => simp
        | false =>
          rw [if_neg (by simp : ¬ (false = true))]
          have hfoll : tryFollowers (fun m => getTaskStatusFromMember (resp k m))
              (members.filter (fun m => !m.is_leader)) = none :=
            tryFollowers_eq_none _ _ (fun m hm => hF k m hm)
          cases hfind : members.find? (fun m => m.is_leader) with
          | none => exact Or.inl ⟨"no committee member answered", by simp [hfoll]⟩
          | some L =>
            exact Or.inl ⟨"no committee member answered", by simp [hL k L hfind, hfoll]⟩
    unfold getTaskStatus withRetry runRetry
    rcases hbody 0 with ⟨e0, h0⟩ | h0
    · rcases hbody 1 with ⟨e1, h1⟩ | h1
      · simp only [h0, runRetry, Nat.zero_add, h1]
      · simp only [h0, runRetry, Nat.zero_add, h1]
    · simp only [h0]

/-- Leader of the concrete committee used to witness the fallback theorem. -/
def c5Leader : CommitteeMember := ⟨"leader", "10.24.136.124", 9000, true⟩

/-- First follower of the concrete committee. -/
def c5F1 : CommitteeMember := ⟨"follower1", "10.24.216.33", 9000, false⟩

/-- Second follower of the concrete committee. -/
def c5F2 : CommitteeMember := ⟨"follower2", "10.24.198.225", 9000, false⟩

/-- Concrete committee: one leader, two followers, in cached order. -/
def c5Members : List CommitteeMember := [c5Leader, c5F1, c5F2]

/-- Concrete response oracle: the leader is down on every attempt, follower1
answers 200 with a payload, follower2 is down. -/
def c5Resp : Nat → CommitteeMember → Nat → Except String TaskStatus :=
  fun _ m _ =>
    if m.is_leader then .error "leader down"
    else if m.account_id = "follower1" then .ok "status-payload" else .error "down"

/-- Witness for C5: with the leader failing and follower1 answering, the
query returns follower1's payload. -/
theorem getTaskStatus_leader_fallback_witness :
    getTaskStatus (fun _ => true) c5Members c5Resp = some "status-payload" := by
  refine (getTaskStatus_leader_fallback c5Members c5Resp (fun _ => true)).1
    "status-payload" rfl rfl ?_ (by decide)
  intro L hfind
  have heq : some c5Leader = some L := by
    rw [← hfind]
    rfl
  rw [← Option.some.inj heq]
  rfl

/-- Every entry of a JS Map after a set is the new pair or an old entry. -/
theorem mem_mapSet {k : Option String} {v : String} :
    ∀ (m : List (Option String × String)), ∀ kv ∈ mapSet m k v, kv = (k, v) ∨ kv ∈ m := by
  intro m
  induction m with
  | nil =>
    intro kv h
    unfold mapSet at h
    exact Or.inl (List.mem_singleton.1 h)
  | cons a rest ih =>
    intro kv h
    unfold mapSet at h
    split at h
    · rcases List.mem_cons.1 h with h1 | h1
      · exact Or.inl h1
      · exact Or.inr (List.mem_cons_of_mem a h1)
    · rcases List.mem_cons.1 h with h1 | h1
      · exact Or.inr (h1 ▸ List.mem_cons_self a rest)
      · rcases ih kv h1 with h2 | h2
        · exact Or.inl h2
        · exact Or.inr (List.mem_cons_of_mem a h2)

/-- Keys after a JS Map set: the new key or an old key. -/
theorem mapSet_keys_sub {k : Option String} {v : String} :
    ∀ (m : List (Option String × String)), ∀ x ∈ (mapSet m k v).map Prod.fst,
      x = k ∨ x ∈ m.map Prod.fst := by
  intro m x hx
  rcases List.mem_map.1 hx with ⟨kv, hkv, hfst⟩
  rcases mem_mapSet m kv hkv with h1 | h1
  · exact Or.inl (by rw [← hfst, h1])
  · exact Or.inr (hfst ▸ List.mem_map_of_mem Prod.fst h1)

/-- JS Map set preserves distinctness of keys. -/
theorem mapSet_keys_nodup {k : Option String} {v : String} :
    ∀ (m : List (Option String × String)), (m.map Prod.fst).Nodup →
      ((mapSet m k v).map Prod.fst).Nodup := by
  intro m
  induction m with
  | nil =>
    intro _
    simp [mapSet]
  | cons a rest ih =>
    intro h
    unfold mapSet
    split
    · rename_i heq
      simp only [List.map_cons, List.nodup_cons] at h ⊢
      exact ⟨heq ▸ h.1, h.2⟩
    · rename_i hne
      simp only [List.map_cons, List.nodup_cons] at h ⊢
      refine ⟨?_, ih h.2⟩
      intro hxin
      rcases mapSet_keys_sub rest a.1 hxin with h1 | h1
      · exact hne h1
      · exact h.1 h1

/-- Invariant of the GOP map under construction: every key is a marker of
the timestamp list and keys are pairwise distinct. -/
def gopKeyOk (ts : List String) (m : List (Option String × String)) : Prop :=
  (∀ kv ∈ m, ∃ t ∈ ts, kv.1 = some t) ∧ (m.map Prod.fst).Nodup

/-- Setting a marker key preserves the GOP map invariant. -/
theorem gopKeyOk_mapSet {ts : List String} {m : List (Option String × String)}
    (h : gopKeyOk ts m) {k : Option String} (hk : ∃ t ∈ ts, k = some t) (v : String) :
    gopKeyOk ts (mapSet m k v) := by
  constructor
  · intro kv hkv
    rcases mem_mapSet m kv hkv with h1 | h1
    · rcases hk with ⟨t, ht, hkt⟩
      exact ⟨t, ht, by rw [h1, hkt]⟩
    · exact h.1 kv h1
  · exact mapSet_keys_nodup m h.2

/-- The middle loop of splitVideoIntoGops preserves the GOP map invariant as
long as every index it touches is in range. -/
theorem gopKeyOk_foldl (ts : List String) (segExists : Nat → Bool) :
    ∀ is : List Nat, (∀ i ∈ is, i < ts.length) → ∀ m, gopKeyOk ts m →
      gopKeyOk ts (is.foldl
        (fun m i => if segExists i then mapSet m (ts.get? i) (segName i) else m) m) := by
  intro is
  induction is with
  | nil =>
    intro _ m hm
    exact hm
  | cons i rest ih =>
    intro hlt m hm
    simp only [List.foldl_cons]
    apply ih (fun j hj => hlt j (List.mem_cons_of_mem i hj))
    by_cases hs : segExists i = true
    · rw [if_pos hs]
      have hi : i < ts.length := hlt i (List.mem_cons_self i rest)
      exact gopKeyOk_mapSet hm ⟨ts.get ⟨i, hi⟩, List.get_mem ts i hi,
        List.get?_eq_get hi⟩ (segName i)
    · rw [if_neg hs]
      exact hm

/-- C8: for a non-empty marker list, every key of the returned mapping is one
of the input markers, and there is at most one entry per marker. -/
theorem splitVideoIntoGops_keys
    (ffmpegOk : Bool) (segExists : Nat → Bool) (ts : List String)
    (m : List (Option String × String)) (hne : ts ≠ [])
    (hok : splitVideoIntoGops ffmpegOk segExists ts = .ok m) :
    (∀ kv ∈ m, ∃ t ∈ ts, kv.1 = some t) ∧ (m.map Prod.fst).Nodup := by
  have hlen : 0 < ts.length := List.length_pos.2 hne
  cases ffmpegOk with
  | false => simp [splitVideoIntoGops] at hok
  | true =>
    simp only [splitVideoIntoGops, if_neg (by decide : ¬ (true = false))] at hok
    have hm := Except.ok.inj hok
    subst hm
    have h0 : gopKeyOk ts
        (if segExists 0 then mapSet [] (ts.get? 0) (segName 0) else []) := by
      by_cases h : segExists 0 = true
      · rw [if_pos h]
        exact gopKeyOk_mapSet ⟨by simp, by simp⟩
          ⟨ts.get ⟨0, hlen⟩, List.get_mem ts 0 hlen, List.get?_eq_get hlen⟩ (segName 0)
      · rw [if_neg h]
        exact ⟨by simp, by simp⟩
    have h1 := gopKeyOk_foldl ts segExists (List.range' 1 (ts.length - 1))
      (fun i hi => by
        have := List.mem_range'_1.1 hi
        omega) _ h0
    have hlast : ts.length - 1 < ts.length := by omega
    by_cases h2 : segExists ts.length = true
    · rw [if_pos h2]
      exact gopKeyOk_mapSet h1
        ⟨ts.get ⟨ts.length - 1, hlast⟩, List.get_mem ts _ hlast, List.get?_eq_get hlast⟩
        (segName ts.length)
    · rw [if_neg h2]
      exact h1

/-- Witness for C8 on a concrete two-marker split in which every segment file
exists (the last boundary segment overwrites the last marker's entry, keeping
one entry per marker). -/
theorem splitVideoIntoGops_keys_witness :
    (∀ kv ∈ [(some "a", segName 0), (some "b", segName 2)],
      ∃ t ∈ ["a", "b"], kv.1 = some t) ∧
    (([(some "a", segName 0), (some "b", segName 2)] :
      List (Option String × String)).map Prod.fst).Nodup :=
  splitVideoIntoGops_keys true (fun _ => true) ["a", "b"]
    [(some "a", segName 0), (some "b", segName 2)] (by decide) (by rfl)

/-- C9 (amended): with an empty marker list the splitter still invokes the
tool; a failed tool run propagates as an error, and on a successful run the
result is the empty map exactly when no segment_0 file was produced —
otherwise the single boundary segment is keyed by the undefined marker. -/
theorem splitVideoIntoGops_empty_run (e : Nat → Bool) :
    splitVideoIntoGops false e [] = Except.error "ffmpeg segment run failed" ∧
    splitVideoIntoGops true e [] =
      Except.ok (if e 0 then [(none, segName 0)] else []) := by
  constructor
  · rfl
  · unfold splitVideoIntoGops
    cases h : e 0 <;> simp [h, mapSet, List.range']

/-- Counterexample for C9: on an empty marker list a failed tool run makes
splitVideoIntoGops propagate the error instead of returning a map, and even a
tool run that produces segment_0 yields a non-empty map keyed by the undefined
marker. -/
theorem splitVideoIntoGops_empty_cex :
    splitVideoIntoGops false (fun _ => false) [] =
      Except.error "ffmpeg segment run failed" ∧
    splitVideoIntoGops true (fun _ => true) [] = Except.ok [(none, segName 0)] ∧
    (Except.ok [(none, segName 0)] :
      Except String (List (Option String × String))) ≠ Except.ok [] := by
  refine ⟨rfl, by rfl, ?_⟩
  intro h
  simp at h

/-- Counterexample for C3: when the ledger submit returns false the task fails
after the assets were downloaded, and the cleanup step is never reached. -/
theorem verifyTask_cleanup_cex :
    verifyTask c3Env c1Task = none ∧
    (verifyTaskTrace c3Env c1Task).2.downloaded = true ∧
    (verifyTaskTrace c3Env c1Task).2.cleaned = false := by
  unfold verifyTask
  rw [c3_run]
  exact ⟨rfl, rfl, rfl⟩

/-- C3 (amended): the per-task cleanup of downloaded assets and extracted
segments runs exactly when verifyTask returns a Proof; every failure path
skips it. -/
theorem verifyTask_cleanup_iff_success (env : VerifyEnv) (task : TaskData) :
    (verifyTaskTrace env task).2.cleaned = true ↔ (verifyTask env task).isSome := by
  unfold verifyTask
  rcases verifyTaskTrace_cases env task with ⟨h1, h2, _⟩ | ⟨p, h1, h2⟩
  · rw [h1, h2]
    simp
  · rw [h1, h2]
    simp

/-- C4 (amended): a selected marker missing either segment is skipped
without aborting the scoring loop; and an empty score sequence makes
verifyTask return null.  (The converse fails: later steps can still return
null with a non-empty score sequence, see the counterexample.) -/
theorem verifyTask_skip_and_empty :
    (∀ (env : VerifyEnv) (smap rmap : String → Option String) (g : String)
      (rest : List String), smap g = none ∨ rmap g = none →
      scoreGops env smap rmap (g :: rest) = scoreGops env smap rmap rest) ∧
    (∀ (env : VerifyEnv) (task : TaskData) (sp rp : String)
      (smap rmap : String → Option String),
      env.download = Except.ok (sp, rp) →
      env.splitSource (allTimestampsOf task) = Except.ok smap →
      env.splitResult (allTimestampsOf task) = Except.ok rmap →
      scoreGops env smap rmap (selectedOf task) = Except.ok [] →
      verifyTask env task = none) := by
  constructor
  · intro env smap rmap g rest h
    rcases h with h | h
    · simp only [scoreGops, h]
    · cases hs : smap g with
      | none => simp only [scoreGops, hs]
      | some sp => simp only [scoreGops, hs, h]
  · intro env task sp rp smap rmap hdl hss hsr hsc
    unfold verifyTask verifyTaskTrace
    split
    · rfl
    · split
      · rfl
      · rw [hdl, hss, hsr]
        simp [hsc]

/-- Environment in which the result asset splits to an empty map, so every
selected marker is skipped and no sample is scored. -/
def c4Env : VerifyEnv := { c1Env with splitResult := fun _ => .ok (fun _ => none) }

/-- Witness for C4: a concrete skipped marker, and a concrete run with zero
scored samples returning null. -/
theorem verifyTask_skip_and_empty_witness :
    scoreGops c1Env (fun _ => none) c1ResMap ["0"] =
      scoreGops c1Env (fun _ => none) c1ResMap [] ∧
    verifyTask c4Env c1Task = none :=
  ⟨verifyTask_skip_and_empty.1 c1Env (fun _ => none) c1ResMap "0" [] (Or.inl rfl),
    verifyTask_skip_and_empty.2 c4Env c1Task "s.mp4" "r.mp4" c1SrcMap (fun _ => none)
      rfl rfl rfl rfl⟩

/-- C10: a successful non-supplemental verification fans the same proof out
to the committee twice: once inside verifyTask and once more from
processNextTask. -/
theorem processNextTask_double_send
    (env : VerifyEnv) (tw : TaskDataWithRole) (p : VerifierQosProof)
    (hrole : tw.is_supplemental_verifier = false)
    (hp : verifyTask env tw.task = some p) :
    processNextTaskSends env tw = [p, p] := by
  unfold verifyTask at hp
  unfold processNextTaskSends
  rcases verifyTaskTrace_cases env tw.task with ⟨h1, _, _⟩ | ⟨q, h1, h2⟩
  · rw [h1] at hp
    cases hp
  · rw [h1] at hp
    have hq : q = p := Option.some.inj hp
    subst hq
    rw [h1, h2, hrole]
    simp

/-- Witness for C10 on the end-to-end scenario. -/
theorem processNextTask_double_send_witness :
    processNextTaskSends c1Env ⟨c1Task, false⟩ = [c1Proof, c1Proof] :=
  processNextTask_double_send c1Env ⟨c1Task, false⟩ c1Proof rfl
    (by unfold verifyTask; rw [c1_run])

/-- Counterexample for C4: in the failed-ledger-submit run the scoring loop
produced three samples (non-empty), yet verifyTask returns null — the
null return is not equivalent to an empty score sequence. -/
theorem verifyTask_nullIff_cex :
    verifyTask c3Env c1Task = none ∧
    c3Env.splitSource (allTimestampsOf c1Task) = Except.ok c1SrcMap ∧
    c3Env.splitResult (allTimestampsOf c1Task) = Except.ok c1ResMap ∧
    scoreGops c3Env c1SrcMap c1ResMap (selectedOf c1Task) =
      Except.ok [⟨"0", 82, "h0"⟩, ⟨"2.27", 85, "h2"⟩, ⟨"5.13", 87, "h5"⟩] ∧
    ([⟨"0", 82, "h0"⟩, ⟨"2.27", 85, "h2"⟩, ⟨"5.13", 87, "h5"⟩] : List GopScore) ≠ [] := by
  refine ⟨by unfold verifyTask; rw [c3_run], rfl, rfl, ?_, by simp⟩
  simp +decide only [scoreGops, c3Env, c1Env, c1SrcMap, c1ResMap, c1Task, selectedOf,
    calculateVmafScore]
  simp
  norm_num

/-- Counterexample for C1: in the end-to-end scenario with scorer outputs 92,
95 and 97 the produced proof has 3 samples but its overall score is 254/3
(about 84.667), not within 0.001 of 94.667. -/
theorem verifyTask_mean_cex :
    verifyTask c1Env c1Task = some c1Proof ∧
    c1Proof.gop_scores.length = 3 ∧
    ¬ |c1Proof.video_score - 94667 / 1000| ≤ 1 / 1000 := by
  refine ⟨by unfold verifyTask; rw [c1_run], rfl, ?_⟩
  rw [show c1Proof.video_score = 254 / 3 from rfl, abs_le]
  push_neg
  intro h
  norm_num at h

/-- C1 (amended): when the three selected markers extract on both assets and
the scorer returns 92, 95 and 97, the pipeline produces a Proof with three
samples whose overall score is the mean of the offset scores, 254/3 =
84.667 within 0.001 (the 10-point subtraction of VerifierService.ts line 310
shifts the mean from 94.667 to 84.667). -/
theorem verifyTask_three_samples_mean
    (env : VerifyEnv) (task : TaskData) (g1 g2 g3 sp rp a1 b1 a2 b2 a3 b3 h1 h2 h3 : String)
    (smap rmap : String → Option String) (specs : VideoSpecification)
    (hf1 : jsFalsy task.source_ipfs = false)
    (hf2 : jsFalsy task.result_ipfs = false)
    (hsel : task.selected_gops = some [g1, g2, g3])
    (hdl : env.download = Except.ok (sp, rp))
    (hss : env.splitSource (allTimestampsOf task) = Except.ok smap)
    (hsr : env.splitResult (allTimestampsOf task) = Except.ok rmap)
    (hs1 : smap g1 = some a1) (hr1 : rmap g1 = some b1)
    (hs2 : smap g2 = some a2) (hr2 : rmap g2 = some b2)
    (hs3 : smap g3 = some a3) (hr3 : rmap g3 = some b3)
    (hv1 : calculateVmafScore (env.vmafRun a1 b1) = 92)
    (hv2 : calculateVmafScore (env.vmafRun a2 b2) = 95)
    (hv3 : calculateVmafScore (env.vmafRun a3 b3) = 97)
    (hh1 : env.gopHash b1 = Except.ok h1)
    (hh2 : env.gopHash b2 = Except.ok h2)
    (hh3 : env.gopHash b3 = Except.ok h3)
    (hspec : env.videoSpecsOf rp = Except.ok specs)
    (hsub : env.submit = Except.ok true) :
    ∃ p, verifyTask env task = some p ∧ p.gop_scores.length = 3 ∧
      p.video_score = 254 / 3 ∧ |p.video_score - 84667 / 1000| ≤ 1 / 1000 := by
  have hselOf : selectedOf task = [g1, g2, g3] := by simp [selectedOf, hsel]
  have hscore : scoreGops env smap rmap [g1, g2, g3] =
      Except.ok [⟨g1, (92 : ℚ) - 10, h1⟩, ⟨g2, (95 : ℚ) - 10, h2⟩,
        ⟨g3, (97 : ℚ) - 10, h3⟩] := by
    simp only [scoreGops, hs1, hr1, hh1, hv1, hs2, hr2, hh2, hv2, hs3, hr3, hh3, hv3]
  simp only [verifyTask, verifyTaskTrace, hf1, hf2, hsel, hselOf, hdl, hss, hsr,
    hscore, hspec, hsub, Option.isNone_some, Bool.or_self, Bool.or_false,
    Bool.false_eq_true, if_false, List.isEmpty_cons]
  refine ⟨_, rfl, rfl, ?_, ?_⟩
  · norm_num
  · norm_num [abs_le]

/-- Witness for C1 (amended) on the concrete end-to-end scenario. -/
theorem verifyTask_three_samples_mean_witness :
    ∃ p, verifyTask c1Env c1Task = some p ∧ p.gop_scores.length = 3 ∧
      p.video_score = 254 / 3 ∧ |p.video_score - 84667 / 1000| ≤ 1 / 1000 :=
  verifyTask_three_samples_mean c1Env c1Task "0" "2.27" "5.13" "s.mp4" "r.mp4"
    "s-0" "r-0" "s-2.27" "r-2.27" "s-5.13" "r-5.13" "h0" "h2" "h5"
    c1SrcMap c1ResMap c1Specs rfl rfl rfl rfl rfl rfl rfl rfl rfl rfl rfl rfl
    rfl rfl rfl rfl rfl rfl rfl rfl

/-- Witness for C3 (amended) at the failed-submit scenario. -/
theorem verifyTask_cleanup_iff_success_witness :
    (verifyTaskTrace c3Env c1Task).2.cleaned = true ↔ (verifyTask c3Env c1Task).isSome :=
  verifyTask_cleanup_iff_success c3Env c1Task

/-- Witness for C9 (amended) at a concrete segment-file oracle. -/
theorem splitVideoIntoGops_empty_run_witness :
    splitVideoIntoGops false (fun _ => true) [] =
      Except.error "ffmpeg segment run failed" ∧
    splitVideoIntoGops true (fun _ => true) [] =
      Except.ok (if (fun _ : Nat => true) 0 then [(none, segName 0)] else []) :=
  splitVideoIntoGops_empty_run (fun _ => true)
